import Mathlib

set_option maxRecDepth 100000
set_option maxHeartbeats 1000000

/-!
Verification of the OpenClaw system-prompt assembler
(`src/agents/system-prompt.ts`).

The TypeScript source is shallowly embedded below.  JavaScript string
primitives (`trim`, `toLowerCase`, `join`, truthiness, `Array.prototype.filter(Boolean)`,
`Set` deduplication, `Map` first/last-wins insertion) are modelled by
structurally recursive Lean functions on `List Char` / `List String`, so that
every definition evaluates inside the kernel.  The filesystem read performed
by `readSystemTemplateSync` is made explicit: the assembler takes a function
`fsRead : String → Except String String` describing the outcome of reading a
path, and the external nunjucks renderer is an explicit parameter
`render : String → TemplateContext → String` (the templating engine is an
external collaborator of the component under verification).
-/

namespace OpenClaw

/-! ## JavaScript string primitives, embedded structurally -/

/-- Embedding of `String.prototype.trim`: drop leading and trailing
whitespace characters. -/
def trimChars (l : List Char) : List Char :=
  ((l.dropWhile Char.isWhitespace).reverse.dropWhile Char.isWhitespace).reverse

/-- Embedding of `String.prototype.trim` on `String`. -/
def jsTrim (s : String) : String := ⟨trimChars s.data⟩

/-- Embedding of `String.prototype.toLowerCase` (ASCII case folding, which is
all the source relies on). -/
def jsToLower (s : String) : String := ⟨s.data.map Char.toLower⟩

/-- Truthiness of an optional JavaScript string: `undefined`, `null` and the
empty string are falsy. -/
def isTruthy : Option String → Bool
  | Option.none => false
  | some s => s != ""

/-- Embedding of `Array.prototype.join("\n")` (also used for
`lines.join("\n")` in the source). -/
def joinLines : List String → String
  | [] => ""
  | [l] => l
  | l :: ls => l ++ "\n" ++ joinLines ls

/-- Helper for `dedupFirst`: skip elements already seen. -/
def dedupFirstAux (seen : List String) : List String → List String
  | [] => []
  | x :: xs =>
    if seen.contains x then dedupFirstAux seen xs
    else x :: dedupFirstAux (x :: seen) xs

/-- Embedding of `Array.from(new Set(xs))`: deduplicate keeping the first
occurrence of each element. -/
def dedupFirst (l : List String) : List String := dedupFirstAux [] l

/-- Insert into a lexicographically sorted list of strings. -/
def insertSorted (x : String) : List String → List String
  | [] => [x]
  | y :: ys => if x ≤ y then x :: y :: ys else y :: insertSorted x ys

/-- Embedding of `Array.prototype.toSorted()` on string arrays. -/
def sortStrings (l : List String) : List String := l.foldr insertSorted []

/-- Boolean prefix test on character lists. -/
def isPrefOf : List Char → List Char → Bool
  | [], _ => true
  | _ :: _, [] => false
  | a :: as, b :: bs => a == b && isPrefOf as bs

/-- Boolean contiguous-substring test on character lists. -/
def infixOfChars : List Char → List Char → Bool
  | p, [] => p.isEmpty
  | p, c :: t => isPrefOf p (c :: t) || infixOfChars p t

/-- Embedding of `String.prototype.includes`: `containsStr s pat` holds when
`pat` occurs contiguously inside `s`. -/
def containsStr (s pat : String) : Bool := infixOfChars pat.data s.data

/-! ## Data model: the Prompt Context and its nested records -/

/-- Runtime descriptor (`runtimeInfo` parameter of `buildAgentSystemPrompt`). -/
structure RuntimeInfo where
  agentId : Option String := Option.none
  host : Option String := Option.none
  os : Option String := Option.none
  arch : Option String := Option.none
  node : Option String := Option.none
  model : Option String := Option.none
  defaultModel : Option String := Option.none
  channel : Option String := Option.none
  capabilities : Option (List String) := Option.none
  repoRoot : Option String := Option.none
deriving DecidableEq

/-- Elevated-exec descriptor inside the sandbox descriptor. -/
structure SandboxElevated where
  allowed : Bool
  defaultLevel : String
deriving DecidableEq

/-- Sandbox descriptor (`sandboxInfo` parameter). -/
structure SandboxInfo where
  enabled : Bool
  workspaceDir : Option String := Option.none
  workspaceAccess : Option String := Option.none
  agentWorkspaceMount : Option String := Option.none
  browserBridgeUrl : Option String := Option.none
  browserNoVncUrl : Option String := Option.none
  hostBrowserAllowed : Option Bool := Option.none
  elevated : Option SandboxElevated := Option.none
deriving DecidableEq

/-- Reaction guidance record (`reactionGuidance` parameter). -/
structure ReactionGuidance where
  level : String
  channel : String
deriving DecidableEq

/-- An injected context file (`contextFiles` entries). -/
structure ContextFile where
  path : String
  content : String
deriving DecidableEq

/-- The three-valued display mode (`PromptMode` in the source). -/
inductive PromptMode where
  | full
  | minimal
  | none
deriving DecidableEq

/-- String value of a `PromptMode`, as the TypeScript union of literals. -/
def PromptMode.str : PromptMode → String
  | .full => "full"
  | .minimal => "minimal"
  | .none => "none"

/-- The caller input record of `buildAgentSystemPrompt` (the Prompt Context).
Optional TypeScript fields become `Option`; `toolSummaries` is the entry list
of the record in enumeration order. -/
structure Params where
  workspaceDir : String
  defaultThinkLevel : Option String := Option.none
  reasoningLevel : Option String := Option.none
  extraSystemPrompt : Option String := Option.none
  ownerNumbers : Option (List String) := Option.none
  reasoningTagHint : Bool := false
  toolNames : Option (List String) := Option.none
  toolSummaries : List (String × String) := []
  modelAliasLines : Option (List String) := Option.none
  userTimezone : Option String := Option.none
  userTime : Option String := Option.none
  userTimeFormat : Option String := Option.none
  contextFiles : Option (List ContextFile) := Option.none
  skillsPrompt : Option String := Option.none
  heartbeatPrompt : Option String := Option.none
  docsPath : Option String := Option.none
  workspaceNotes : Option (List String) := Option.none
  ttsHint : Option String := Option.none
  promptMode : Option PromptMode := Option.none
  runtimeInfo : Option RuntimeInfo := Option.none
  messageToolHints : Option (List String) := Option.none
  sandboxInfo : Option SandboxInfo := Option.none
  reactionGuidance : Option ReactionGuidance := Option.none
  memoryCitationsMode : Option String := Option.none
deriving DecidableEq

/-- Values the source file imports from sibling modules that are external to
the assembler (`SILENT_REPLY_TOKEN` from `auto-reply/tokens` and
`listDeliverableMessageChannels()` from `utils/message-channel`); they are
opaque inputs of the component and are therefore parameters of the
development. -/
structure Env where
  silentReplyToken : String
  deliverableMessageChannels : List String
deriving DecidableEq

/-! ## Section builders (one Lean definition per source function) -/

/-- Embedding of `buildSkillsSection`. -/
def buildSkillsSection (skillsPrompt : Option String) (isMinimal : Bool)
    (readToolName : String) : List String :=
  if isMinimal then [] else
  let trimmed := skillsPrompt.map jsTrim
  if !(isTruthy trimmed) then [] else
  ["## Skills (mandatory)",
   "Before replying: scan <available_skills> <description> entries.",
   "- If exactly one skill clearly applies: read its SKILL.md at <location> with `" ++ readToolName ++ "`, then follow it.",
   "- If multiple could apply: choose the most specific one, then read/follow it.",
   "- If none clearly apply: do not read any SKILL.md.",
   "Constraints: never read more than one skill up front; only read after selecting.",
   trimmed.getD "",
   ""]

/-- Embedding of `buildMemorySection`. -/
def buildMemorySection (isMinimal : Bool) (availableTools : List String)
    (citationsMode : Option String) : List String :=
  if isMinimal then [] else
  if !(availableTools.contains "memory_search") && !(availableTools.contains "memory_get") then [] else
  ["## Memory Recall",
   "Before answering anything about prior work, decisions, dates, people, preferences, or todos: run memory_search on MEMORY.md + memory/*.md; then use memory_get to pull only the needed lines. If low confidence after search, say you checked."]
  ++ (if citationsMode = some "off" then
        ["Citations are disabled: do not mention file paths or line numbers in replies unless the user explicitly asks."]
      else
        ["Citations: include Source: <path#line> when it helps the user verify memory snippets."])
  ++ [""]

/-- Embedding of `buildUserIdentitySection`. -/
def buildUserIdentitySection (ownerLine : Option String) (isMinimal : Bool) : List String :=
  if !(isTruthy ownerLine) || isMinimal then [] else
  ["## User Identity", ownerLine.getD "", ""]

/-- Embedding of `buildTimeSection`. -/
def buildTimeSection (userTimezone : Option String) : List String :=
  if !(isTruthy userTimezone) then [] else
  ["## Current Date & Time",
   "Time zone: " ++ userTimezone.getD "",
   "If you need the current date, time, or day of week, run session_status (üìä session_status).",
   ""]

/-- Embedding of `buildReplyTagsSection`. -/
def buildReplyTagsSection (isMinimal : Bool) : List String :=
  if isMinimal then [] else
  ["## Reply Tags",
   "To request a native reply/quote on supported surfaces, include one tag in your reply:",
   "- [[reply_to_current]] replies to the triggering message.",
   "- [[reply_to:<id>]] replies to a specific message id when you have it.",
   "Whitespace inside the tag is allowed (e.g. [[ reply_to_current ]] / [[ reply_to: 123 ]]).",
   "Tags are stripped before sending; support depends on the current channel config.",
   ""]

/-- Embedding of `buildMessagingSection` (the `SILENT_REPLY_TOKEN` import is
passed in explicitly). -/
def buildMessagingSection (isMinimal : Bool) (availableTools : List String)
    (messageChannelOptions : String) (inlineButtonsEnabled : Bool)
    (runtimeChannel : Option String) (messageToolHints : Option (List String))
    (silentReplyToken : String) : List String :=
  if isMinimal then [] else
  ["## Messaging",
   "- Reply in current session ‚Üí automatically routes to the source channel (Signal, Telegram, etc.)",
   "- Cross-session messaging ‚Üí use sessions_send(sessionKey, message)",
   "- Never use exec/curl for provider messaging; OpenClaw handles all routing internally.",
   (if availableTools.contains "message" then
      joinLines ((["",
        "### message tool",
        "- Use `message` for proactive sends + channel actions (polls, reactions, etc.).",
        "- For `action=send`, include `to` and `message`.",
        "- If multiple channels are configured, pass `channel` (" ++ messageChannelOptions ++ ").",
        "- If you use `message` (`action=send`) to deliver your user-visible reply, respond with ONLY: " ++ silentReplyToken ++ " (avoid duplicate replies).",
        (if inlineButtonsEnabled then
          "- Inline buttons supported. Use `action=send` with `buttons=[[\x7btext,callback_data\x7d]]` (callback_data routes back as a user message)."
         else if isTruthy runtimeChannel then
          "- Inline buttons not enabled for " ++ runtimeChannel.getD "" ++ ". If you need them, ask to set " ++ runtimeChannel.getD "" ++ ".capabilities.inlineButtons (\"dm\"|\"group\"|\"all\"|\"allowlist\")."
         else "")]
        ++ messageToolHints.getD []).filter (· != ""))
    else ""),
   ""]

/-- Embedding of `buildVoiceSection`. -/
def buildVoiceSection (isMinimal : Bool) (ttsHint : Option String) : List String :=
  if isMinimal then [] else
  let hint := ttsHint.map jsTrim
  if !(isTruthy hint) then [] else
  ["## Voice (TTS)", hint.getD "", ""]

/-- Embedding of `buildDocsSection` (its `readToolName` parameter is unused in
the source body as well). -/
def buildDocsSection (docsPath : Option String) (isMinimal : Bool)
    (_readToolName : String) : List String :=
  let docsPath := docsPath.map jsTrim
  if !(isTruthy docsPath) || isMinimal then [] else
  ["## Documentation",
   "OpenClaw docs: " ++ docsPath.getD "",
   "Mirror: https://docs.molt.bot",
   "Source: https://github.com/moltbot/moltbot",
   "Community: https://discord.com/invite/clawd",
   "Find new skills: https://clawdhub.com",
   "For OpenClaw behavior, commands, config, or architecture: consult local docs first.",
   "When diagnosing issues, run `moltbot status` yourself when possible; only ask the user if you lack access (e.g., sandboxed).",
   ""]

/-- Embedding of `buildBasicIdentitySection`. -/
def buildBasicIdentitySection : List String :=
  ["You are a personal assistant running inside OpenClaw.", ""]

/-- Embedding of `buildToolingSection`. -/
def buildToolingSection (toolLines : List String) (execToolName processToolName : String)
    (isMinimal : Bool) : List String :=
  if isMinimal then [] else
  let toolContent :=
    if toolLines.length > 0 then joinLines toolLines
    else joinLines
      ["Pi lists the standard tools above. This runtime enables:",
       "- grep: search file contents for patterns",
       "- find: find files by glob pattern",
       "- ls: list directory contents",
       "- apply_patch: apply multi-file patches",
       "- " ++ execToolName ++ ": run shell commands (supports background via yieldMs/background)",
       "- " ++ processToolName ++ ": manage background exec sessions",
       "- browser: control openclaw's dedicated browser",
       "- canvas: present/eval/snapshot the Canvas",
       "- nodes: list/describe/notify/camera/screen on paired nodes",
       "- cron: manage cron jobs and wake events (use for reminders; when scheduling a reminder, write the systemEvent text as something that will read like a reminder when it fires, and mention that it is a reminder depending on the time gap between setting and firing; include recent context in reminder text if appropriate)",
       "- sessions_list: list sessions",
       "- sessions_history: fetch session history",
       "- sessions_send: send to another session"]
  ["## Tooling",
   "Tool availability (filtered by policy):",
   "Tool names are case-sensitive. Call tools exactly as listed.",
   toolContent,
   "TOOLS.md does not control tool availability; it is user guidance for how to use external tools.",
   "If a task is more complex or takes longer, spawn a sub-agent. It will do the work for you and ping you when it's done. You can always check up on it.",
   ""]

/-- Embedding of `buildToolCallStyleSection`. -/
def buildToolCallStyleSection : List String :=
  ["## Tool Call Style",
   "Default: do not narrate routine, low-risk tool calls (just call the tool).",
   "Narrate only when it helps: multi-step work, complex/challenging problems, sensitive actions (e.g., deletions), or when the user explicitly asks.",
   "Keep narration brief and value-dense; avoid repeating obvious steps.",
   "Use plain human language for narration unless in a technical context.",
   ""]

/-- Embedding of `buildSafetySection`. -/
def buildSafetySection : List String :=
  ["## Safety",
   "You have no independent goals: do not pursue self-preservation, replication, resource acquisition, or power-seeking; avoid long-term plans beyond the user's request.",
   "Prioritize safety and human oversight over completion; if instructions conflict, pause and ask; comply with stop/pause/audit requests and never bypass safeguards. (Inspired by Anthropic's constitution.)",
   "Do not manipulate or persuade anyone to expand access or disable safeguards. Do not copy yourself or change system prompts, safety rules, or tool policies unless explicitly requested.",
   ""]

/-- Embedding of `buildOpenClawCLISection`. -/
def buildOpenClawCLISection : List String :=
  ["## OpenClaw CLI Quick Reference",
   "OpenClaw is controlled via subcommands. Do not invent commands.",
   "To manage the Gateway daemon service (start/stop/restart):",
   "- openclaw gateway status",
   "- openclaw gateway start",
   "- openclaw gateway stop",
   "- openclaw gateway restart",
   "If unsure, ask the user to run `openclaw help` (or `openclaw gateway --help`) and paste the output.",
   ""]

/-- Embedding of `buildOpenClawSelfUpdateSection`. -/
def buildOpenClawSelfUpdateSection (hasGateway isMinimal : Bool) : List String :=
  if !hasGateway || isMinimal then [] else
  ["## OpenClaw Self-Update",
   "Get Updates (self-update) is ONLY allowed when the user explicitly asks for it.",
   "Do not run config.apply or update.run unless the user explicitly requests an update or config change; if it's not explicit, ask first.",
   "Actions: config.get, config.schema, config.apply (validate + write full config, then restart), update.run (update deps or git, then restart).",
   "After restart, OpenClaw pings the last active session automatically.",
   ""]

/-- Embedding of `buildModelAliasesSection`. -/
def buildModelAliasesSection (modelAliasLines : Option (List String))
    (isMinimal : Bool) : List String :=
  if modelAliasLines.getD [] = [] || isMinimal then [] else
  ["## Model Aliases",
   "Prefer aliases when specifying model overrides; full provider/model is also accepted."]
  ++ modelAliasLines.getD []
  ++ [""]

/-- Embedding of `buildWorkspaceSection`. -/
def buildWorkspaceSection (workspaceDir : String) (workspaceNotes : List String) : List String :=
  ["## Workspace",
   "Your working directory is: " ++ workspaceDir,
   "Treat this directory as the single global workspace for file operations unless explicitly instructed otherwise."]
  ++ workspaceNotes
  ++ [""]

/-- Embedding of `buildSandboxSection`. -/
def buildSandboxSection (s : SandboxInfo) : List String :=
  if !s.enabled then [] else
  (["## Sandbox",
    "You are running in a sandboxed runtime (tools execute in Docker).",
    "Some tools may be unavailable due to sandbox policy.",
    "Sub-agents stay sandboxed (no elevated/host access). Need outside-sandbox read/write? Don't spawn; ask first."]
   ++ (if isTruthy s.workspaceDir then
        ["Sandbox workspace: " ++ s.workspaceDir.getD ""] else [])
   ++ (if isTruthy s.workspaceAccess then
        ["Agent workspace access: " ++ s.workspaceAccess.getD "" ++
          (if isTruthy s.agentWorkspaceMount then
            " (mounted at " ++ s.agentWorkspaceMount.getD "" ++ ")" else "")]
      else [])
   ++ (if isTruthy s.browserBridgeUrl then ["Sandbox browser: enabled."] else [])
   ++ (if isTruthy s.browserNoVncUrl then
        ["Sandbox browser observer (noVNC): " ++ s.browserNoVncUrl.getD ""] else [])
   ++ (match s.hostBrowserAllowed with
       | some true => ["Host browser control: allowed."]
       | some false => ["Host browser control: blocked."]
       | Option.none => [])
   ++ (if (s.elevated.map (·.allowed)).getD false then
        ["Elevated exec is available for this session.",
         "User can toggle with /elevated on|off|ask|full.",
         "You may also send /elevated on|off|ask|full when needed.",
         "Current elevated level: " ++ (s.elevated.map (·.defaultLevel)).getD "" ++ " (ask runs exec on host with approvals; full auto-approves)."]
      else [])).filter (· != "")
  ++ [""]

/-- Embedding of `buildReactionsSection`. -/
def buildReactionsSection (reactionGuidance : Option ReactionGuidance) : List String :=
  match reactionGuidance with
  | Option.none => []
  | some g =>
    let guidanceText :=
      if g.level = "minimal" then
        joinLines
          ["Reactions are enabled for " ++ g.channel ++ " in MINIMAL mode.",
           "React ONLY when truly relevant:",
           "- Acknowledge important user requests or confirmations",
           "- Express genuine sentiment (humor, appreciation) sparingly",
           "- Avoid reacting to routine messages or your own replies",
           "Guideline: at most 1 reaction per 5-10 exchanges."]
      else
        joinLines
          ["Reactions are enabled for " ++ g.channel ++ " in EXTENSIVE mode.",
           "Feel free to react liberally:",
           "- Acknowledge messages with appropriate emojis",
           "- Express sentiment and personality through reactions",
           "- React to interesting content, humor, or notable events",
           "- Use reactions to confirm understanding or agreement",
           "Guideline: react whenever it feels natural."]
    ["## Reactions", guidanceText, ""]

/-- Embedding of `buildReasoningFormatSection`. -/
def buildReasoningFormatSection (reasoningHint : Option String) : List String :=
  if !(isTruthy reasoningHint) then [] else
  ["## Reasoning Format", reasoningHint.getD "", ""]

/-- Characters after the last slash; embedding of
`normalizedPath.split("/").pop() ?? normalizedPath`. -/
def lastSlashSegment (l : List Char) : List Char :=
  (l.reverse.takeWhile (fun c => c != '/')).reverse

/-- The soul-file test inside `buildProjectContextSection`: trim the path,
normalize backslashes to slashes, take the basename, compare its lowercase
form with `"soul.md"`. -/
def isSoulPath (p : String) : Bool :=
  let normalizedPath := (trimChars p.data).map (fun c => if c == '\\' then '/' else c)
  let baseName := lastSlashSegment normalizedPath
  (⟨baseName.map Char.toLower⟩ : String) = "soul.md"

/-- The persona instruction line pushed when a soul file is present. -/
def soulPersonaLine : String :=
  "If SOUL.md is present, embody its persona and tone. Avoid stiff, generic replies; follow its guidance unless higher-priority instructions override it."

/-- Embedding of `buildProjectContextSection`. -/
def buildProjectContextSection (contextFiles : Option (List ContextFile)) : List String :=
  match contextFiles with
  | Option.none => []
  | some files =>
    if files.length = 0 then [] else
    let hasSoulFile := files.any (fun f => isSoulPath f.path)
    ["# Project Context",
     "",
     "The following project context files have been loaded:"]
    ++ (if hasSoulFile then [soulPersonaLine] else [])
    ++ [""]
    ++ files.flatMap (fun f => ["## " ++ f.path, "", f.content, ""])

/-- Embedding of `buildSilentRepliesSection`. -/
def buildSilentRepliesSection (isMinimal : Bool) (silentReplyToken : String) : List String :=
  if isMinimal then [] else
  ["## Silent Replies",
   "When you have nothing to say, respond with ONLY: " ++ silentReplyToken,
   "",
   "‚ö†Ô∏è Rules:",
   "- It must be your ENTIRE message ‚Äî nothing else",
   "- Never append it to an actual response (never include \"" ++ silentReplyToken ++ "\" in real replies)",
   "- Never wrap it in markdown or code blocks",
   "",
   "‚ùå Wrong: \"Here's help... " ++ silentReplyToken ++ "\"",
   "‚ùå Wrong: \"" ++ silentReplyToken ++ "\"",
   "‚úÖ Right: " ++ silentReplyToken,
   ""]

/-- Embedding of `buildHeartbeatsSection`. -/
def buildHeartbeatsSection (heartbeatPrompt : Option String) (isMinimal : Bool) : List String :=
  if isMinimal then [] else
  let promptLine :=
    if isTruthy heartbeatPrompt then "Heartbeat prompt: " ++ heartbeatPrompt.getD ""
    else "Heartbeat prompt: (configured)"
  ["## Heartbeats",
   promptLine,
   "If you receive a heartbeat poll (a user message matching the heartbeat prompt above), and there is nothing that needs attention, reply exactly:",
   "HEARTBEAT_OK",
   "OpenClaw treats a leading/trailing \"HEARTBEAT_OK\" as a heartbeat ack (and may discard it).",
   "If something needs attention, do NOT include \"HEARTBEAT_OK\"; reply with the alert text instead.",
   ""]

/-- Embedding of `buildRuntimeSection`. -/
def buildRuntimeSection (runtimeLine : String) (reasoningLevel : String)
    (_defaultThinkLevel : Option String) : List String :=
  ["## Runtime",
   runtimeLine,
   "Reasoning: " ++ reasoningLevel ++ " (hidden unless on/stream). Toggle /reasoning; /status shows Reasoning when enabled."]

/-- Embedding of `buildExtraSystemPromptSection`. -/
def buildExtraSystemPromptSection (extraSystemPrompt : Option String)
    (promptMode : PromptMode) : List String :=
  if !(isTruthy extraSystemPrompt) then [] else
  let contextHeader :=
    if promptMode = PromptMode.minimal then "## Subagent Context" else "## Group Chat Context"
  [contextHeader, extraSystemPrompt.getD "", ""]

/-- Embedding of `buildRuntimeLine`. -/
def buildRuntimeLine (runtimeInfo : Option RuntimeInfo) (runtimeChannel : Option String)
    (runtimeCapabilities : List String) (defaultThinkLevel : Option String) : String :=
  "Runtime: " ++ String.intercalate " | " (([
    (if isTruthy (runtimeInfo.bind (·.agentId)) then
      "agent=" ++ (runtimeInfo.bind (·.agentId)).getD "" else ""),
    (if isTruthy (runtimeInfo.bind (·.host)) then
      "host=" ++ (runtimeInfo.bind (·.host)).getD "" else ""),
    (if isTruthy (runtimeInfo.bind (·.repoRoot)) then
      "repo=" ++ (runtimeInfo.bind (·.repoRoot)).getD "" else ""),
    (if isTruthy (runtimeInfo.bind (·.os)) then
      "os=" ++ (runtimeInfo.bind (·.os)).getD "" ++
        (if isTruthy (runtimeInfo.bind (·.arch)) then
          " (" ++ (runtimeInfo.bind (·.arch)).getD "" ++ ")" else "")
     else if isTruthy (runtimeInfo.bind (·.arch)) then
      "arch=" ++ (runtimeInfo.bind (·.arch)).getD ""
     else ""),
    (if isTruthy (runtimeInfo.bind (·.node)) then
      "node=" ++ (runtimeInfo.bind (·.node)).getD "" else ""),
    (if isTruthy (runtimeInfo.bind (·.model)) then
      "model=" ++ (runtimeInfo.bind (·.model)).getD "" else ""),
    (if isTruthy (runtimeInfo.bind (·.defaultModel)) then
      "default_model=" ++ (runtimeInfo.bind (·.defaultModel)).getD "" else ""),
    (if isTruthy runtimeChannel then "channel=" ++ runtimeChannel.getD "" else ""),
    (if isTruthy runtimeChannel then
      "capabilities=" ++
        (if runtimeCapabilities.length > 0 then String.intercalate "," runtimeCapabilities
         else "none")
     else ""),
    "thinking=" ++ defaultThinkLevel.getD "off"
  ]).filter (· != ""))

/-! ## Tool listing sub-algorithm and derived values of `buildAgentSystemPrompt` -/

/-- The `coreToolSummaries` table declared at the top of
`buildAgentSystemPrompt`. -/
def coreToolSummaries : List (String × String) :=
  [("read", "Read file contents"),
   ("write", "Create or overwrite files"),
   ("edit", "Make precise edits to files"),
   ("apply_patch", "Apply multi-file patches"),
   ("grep", "Search file contents for patterns"),
   ("find", "Find files by glob pattern"),
   ("ls", "List directory contents"),
   ("exec", "Run shell commands (pty available for TTY-required CLIs)"),
   ("process", "Manage background exec sessions"),
   ("web_search", "Search the web (Brave API)"),
   ("web_fetch", "Fetch and extract readable content from a URL"),
   ("browser", "Control web browser"),
   ("canvas", "Present/eval/snapshot the Canvas"),
   ("nodes", "List/describe/notify/camera/screen on paired nodes"),
   ("cron", "Manage cron jobs and wake events (use for reminders; when scheduling a reminder, write the systemEvent text as something that will read like a reminder when it fires, and mention that it is a reminder depending on the time gap between setting and firing; include recent context in reminder text if appropriate)"),
   ("message", "Send messages and channel actions"),
   ("gateway", "Restart, apply config, or run updates on the running OpenClaw process"),
   ("agents_list", "List agent ids allowed for sessions_spawn"),
   ("sessions_list", "List other sessions (incl. sub-agents) with filters/last"),
   ("sessions_history", "Fetch history for another session/sub-agent"),
   ("sessions_send", "Send a message to another session/sub-agent"),
   ("sessions_spawn", "Spawn a sub-agent session"),
   ("session_status", "Show a /status-equivalent status card (usage + time + Reasoning/Verbose/Elevated); use for model-use questions (üìä session_status); optional per-session model override"),
   ("image", "Analyze an image with the configured image model")]

/-- Lookup in `coreToolSummaries` (`coreToolSummaries[tool]`). -/
def coreSummary (tool : String) : Option String :=
  (coreToolSummaries.find? (fun kv => kv.1 == tool)).map (·.2)

/-- The canonical `toolOrder` priority list. -/
def toolOrder : List String :=
  ["read", "write", "edit", "apply_patch", "grep", "find", "ls", "exec", "process",
   "web_search", "web_fetch", "browser", "canvas", "nodes", "cron", "message",
   "gateway", "agents_list", "sessions_list", "sessions_history", "sessions_send",
   "session_status", "image"]

/-- `rawToolNames`: the caller's tool names, each trimmed. -/
def rawToolNames (p : Params) : List String := (p.toolNames.getD []).map jsTrim

/-- `canonicalToolNames`: trimmed tool names with blanks removed. -/
def canonicalToolNames (p : Params) : List String := (rawToolNames p).filter (· != "")

/-- `resolveToolName`: first-seen caller casing for a lowercased name
(the `canonicalByNormalized` map is first-wins). -/
def resolveToolName (p : Params) (normalized : String) : String :=
  match (canonicalToolNames p).find? (fun t => jsToLower t == normalized) with
  | some t => t
  | Option.none => normalized

/-- `normalizedTools`: canonical tool names lowercased. -/
def normalizedTools (p : Params) : List String := (canonicalToolNames p).map jsToLower

/-- `availableTools`: the `Set` of normalized tool names (insertion order). -/
def availableTools (p : Params) : List String := dedupFirst (normalizedTools p)

/-- The `externalToolSummaries` map: normalized caller-supplied descriptions
(blank keys or values skipped; later entries overwrite earlier ones). -/
def externalToolSummaries (p : Params) : List (String × String) :=
  p.toolSummaries.filterMap (fun kv =>
    let normalized := jsToLower (jsTrim kv.1)
    if normalized = "" then Option.none
    else if jsTrim kv.2 = "" then Option.none
    else some (normalized, jsTrim kv.2))

/-- Lookup in `externalToolSummaries` (last insertion wins, as for `Map.set`). -/
def externalSummary (p : Params) (tool : String) : Option String :=
  ((externalToolSummaries p).reverse.find? (fun kv => kv.1 == tool)).map (·.2)

/-- `extraTools`: normalized tools outside the canonical order, deduplicated. -/
def extraTools (p : Params) : List String :=
  dedupFirst ((normalizedTools p).filter (fun tool => !(toolOrder.contains tool)))

/-- `enabledTools`: canonical-order tools present in the input. -/
def enabledTools (p : Params) : List String :=
  toolOrder.filter (fun tool => (availableTools p).contains tool)

/-- One formatted tool line: `- <name>: <summary>` or `- <name>`. -/
def toolLineFor (p : Params) (tool : String) : String :=
  let summary := (coreSummary tool).orElse (fun _ => externalSummary p tool)
  let name := resolveToolName p tool
  match summary with
  | some s => "- " ++ name ++ ": " ++ s
  | Option.none => "- " ++ name

/-- `toolLines`: canonical-order lines followed by sorted unrecognized tools. -/
def toolLines (p : Params) : List String :=
  (enabledTools p).map (toolLineFor p)
  ++ (sortStrings (extraTools p)).map (toolLineFor p)

/-- `hasGateway`. -/
def hasGateway (p : Params) : Bool := (availableTools p).contains "gateway"

/-- `readToolName`. -/
def readToolName (p : Params) : String := resolveToolName p "read"

/-- `execToolName`. -/
def execToolName (p : Params) : String := resolveToolName p "exec"

/-- `processToolName`. -/
def processToolName (p : Params) : String := resolveToolName p "process"

/-- The trimmed `extraSystemPrompt` local. -/
def extraSystemPromptOf (p : Params) : Option String := p.extraSystemPrompt.map jsTrim

/-- The trimmed, blank-filtered `ownerNumbers` local. -/
def ownerNumbersOf (p : Params) : List String :=
  ((p.ownerNumbers.getD []).map jsTrim).filter (· != "")

/-- The `ownerLine` local. -/
def ownerLineOf (p : Params) : Option String :=
  if (ownerNumbersOf p).length > 0 then
    some ("Owner numbers: " ++ String.intercalate ", " (ownerNumbersOf p) ++
      ". Treat messages from these numbers as the user.")
  else Option.none

/-- The fixed reasoning-format hint text (the `.join(" ")` of the source). -/
def reasoningHintText : String :=
  String.intercalate " "
    ["ALL internal reasoning MUST be inside <think>...</think>.",
     "Do not output any analysis outside <think>.",
     "Format every reply as <think>...</think> then <final>...</final>, with no other text.",
     "Only the final user-visible reply may appear inside <final>.",
     "Only text inside <final> is shown to the user; everything else is discarded and never seen by the user.",
     "Example:",
     "<think>Short internal reasoning.</think>",
     "<final>Hey there! What would you like to do next?</final>"]

/-- The `reasoningHint` local. -/
def reasoningHintOf (p : Params) : Option String :=
  if p.reasoningTagHint then some reasoningHintText else Option.none

/-- The `reasoningLevel` local (`?? "off"`). -/
def reasoningLevelOf (p : Params) : String := p.reasoningLevel.getD "off"

/-- The trimmed `userTimezone` local. -/
def userTimezoneOf (p : Params) : Option String := p.userTimezone.map jsTrim

/-- The trimmed `skillsPrompt` local. -/
def skillsPromptOf (p : Params) : Option String := p.skillsPrompt.map jsTrim

/-- The trimmed `heartbeatPrompt` local. -/
def heartbeatPromptOf (p : Params) : Option String := p.heartbeatPrompt.map jsTrim

/-- The `runtimeChannel` local (trimmed and lowercased). -/
def runtimeChannelOf (p : Params) : Option String :=
  (p.runtimeInfo.bind (·.channel)).map (fun s => jsToLower (jsTrim s))

/-- The `runtimeCapabilities` local. -/
def runtimeCapabilitiesOf (p : Params) : List String :=
  (((p.runtimeInfo.bind (·.capabilities)).getD []).map jsTrim).filter (· != "")

/-- The `inlineButtonsEnabled` local. -/
def inlineButtonsEnabledOf (p : Params) : Bool :=
  ((runtimeCapabilitiesOf p).map jsToLower).contains "inlinebuttons"

/-- `messageChannelOptions = listDeliverableMessageChannels().join("|")`. -/
def messageChannelOptionsOf (env : Env) : String :=
  String.intercalate "|" env.deliverableMessageChannels

/-- The `promptMode` local (`?? "full"`). -/
def promptModeOf (p : Params) : PromptMode := p.promptMode.getD PromptMode.full

/-- The `isMinimal` local: mode is `minimal` or `none`. -/
def isMinimalOf (p : Params) : Bool :=
  match promptModeOf p with
  | PromptMode.full => false
  | PromptMode.minimal => true
  | PromptMode.none => true

/-- The trimmed, blank-filtered `workspaceNotes` local. -/
def workspaceNotesOf (p : Params) : List String :=
  ((p.workspaceNotes.getD []).map jsTrim).filter (· != "")

/-- The `runtimeLine` argument of the runtime section. -/
def runtimeLineOf (p : Params) : String :=
  buildRuntimeLine p.runtimeInfo (runtimeChannelOf p) (runtimeCapabilitiesOf p)
    p.defaultThinkLevel

/-! ## Template override path -/

/-- The projection handed to the templating engine (the `TemplateContext`
interface of the source). -/
structure TemplateContext where
  workspaceDir : String
  docsPath : Option String
  sandboxEnabled : Option Bool
  sandboxWorkspaceDir : Option String
  sandboxAgentWorkspaceMount : Option String
  hasGateway : Bool
  isMinimal : Bool
  promptMode : String
  ownerLine : Option String
  userTimezone : Option String
  heartbeatPrompt : Option String
  reasoningLevel : Option String
  defaultThinkLevel : Option String
  modelAliasLines : Option (List String)
  workspaceNotes : List String
  extraSystemPrompt : Option String
  reactionGuidance : Option ReactionGuidance
  runtimeInfo : Option RuntimeInfo
  contextFiles : Option (List ContextFile)
  messageChannelOptions : String
  inlineButtonsEnabled : Bool
  runtimeChannel : Option String
  ttsHint : Option String
  messageToolHints : Option (List String)
  toolList : String
  execToolName : String
  processToolName : String
  readToolName : String
  availableTools : List String
deriving DecidableEq

/-- The context record built at the template branch of
`buildAgentSystemPrompt` (source lines 706-736). -/
def mkTemplateContext (env : Env) (p : Params) : TemplateContext where
  workspaceDir := p.workspaceDir
  docsPath := p.docsPath
  sandboxEnabled := p.sandboxInfo.map (·.enabled)
  sandboxWorkspaceDir := p.sandboxInfo.bind (·.workspaceDir)
  sandboxAgentWorkspaceMount := p.sandboxInfo.bind (·.agentWorkspaceMount)
  hasGateway := hasGateway p
  isMinimal := isMinimalOf p
  promptMode := (promptModeOf p).str
  ownerLine := ownerLineOf p
  userTimezone := userTimezoneOf p
  heartbeatPrompt := heartbeatPromptOf p
  reasoningLevel := p.reasoningLevel
  defaultThinkLevel := p.defaultThinkLevel
  modelAliasLines := p.modelAliasLines
  workspaceNotes := workspaceNotesOf p
  extraSystemPrompt := p.extraSystemPrompt
  reactionGuidance := p.reactionGuidance
  runtimeInfo := p.runtimeInfo
  contextFiles := p.contextFiles
  messageChannelOptions := messageChannelOptionsOf env
  inlineButtonsEnabled := inlineButtonsEnabledOf p
  runtimeChannel := runtimeChannelOf p
  ttsHint := p.ttsHint
  messageToolHints := p.messageToolHints
  toolList := joinLines (toolLines p)
  execToolName := execToolName p
  processToolName := processToolName p
  readToolName := readToolName p
  availableTools := availableTools p

/-- Simplified `path.join(agentDir, "SYSTEM.md")` (the read function below is
quantified over, so the exact path normalization is immaterial). -/
def templatePathOf (agentDir : String) : String := agentDir ++ "/" ++ "SYSTEM.md"

/-- Embedding of `readSystemTemplateSync`: any read failure (missing file,
permissions error, ...) yields `none`. -/
def readSystemTemplateSync (fsRead : String → Except String String)
    (agentDir : String) : Option String :=
  match fsRead (templatePathOf agentDir) with
  | Except.ok s => some s
  | Except.error _ => Option.none

/-! ## Default-path assembly -/

/-- The ordered per-section line lists of the default path: the `lines` array
literal of `buildAgentSystemPrompt` (source lines 745-822), including the
conditional pushes that follow it. -/
def promptSections (env : Env) (p : Params) : List (List String) :=
  [["You are a personal assistant running inside OpenClaw.", ""],
   buildToolingSection (toolLines p) (execToolName p) (processToolName p) (isMinimalOf p),
   buildToolCallStyleSection,
   buildSafetySection,
   buildOpenClawCLISection,
   buildOpenClawSelfUpdateSection (hasGateway p) (isMinimalOf p),
   buildModelAliasesSection p.modelAliasLines (isMinimalOf p),
   buildSkillsSection (skillsPromptOf p) (isMinimalOf p) (readToolName p),
   buildMemorySection (isMinimalOf p) (availableTools p) p.memoryCitationsMode,
   buildWorkspaceSection p.workspaceDir (workspaceNotesOf p),
   buildDocsSection p.docsPath (isMinimalOf p) (readToolName p),
   buildSandboxSection (p.sandboxInfo.getD { enabled := false }),
   buildUserIdentitySection (ownerLineOf p) (isMinimalOf p),
   buildTimeSection (userTimezoneOf p),
   ["## Workspace Files (injected)",
    "These user-editable files are loaded by OpenClaw and included below in Project Context.",
    ""],
   buildReplyTagsSection (isMinimalOf p),
   buildMessagingSection (isMinimalOf p) (availableTools p) (messageChannelOptionsOf env)
     (inlineButtonsEnabledOf p) (runtimeChannelOf p) p.messageToolHints env.silentReplyToken,
   buildVoiceSection (isMinimalOf p) p.ttsHint,
   buildProjectContextSection p.contextFiles,
   buildExtraSystemPromptSection (extraSystemPromptOf p) (promptModeOf p),
   (if isTruthy (extraSystemPromptOf p) then
     [(if promptModeOf p = PromptMode.minimal then "## Subagent Context"
       else "## Group Chat Context"),
      (extraSystemPromptOf p).getD "", ""]
    else []),
   buildReactionsSection p.reactionGuidance,
   buildReasoningFormatSection (reasoningHintOf p),
   (if !(isMinimalOf p) then buildSilentRepliesSection (isMinimalOf p) env.silentReplyToken
    else []),
   (if !(isMinimalOf p) then buildHeartbeatsSection (heartbeatPromptOf p) (isMinimalOf p)
    else []),
   buildRuntimeSection (runtimeLineOf p) (reasoningLevelOf p) p.defaultThinkLevel]

/-- The flat `lines` array of the default path. -/
def promptLinesRaw (env : Env) (p : Params) : List String :=
  (promptSections env p).flatten

/-- `lines.filter(Boolean)`: the non-empty lines actually joined. -/
def promptLines (env : Env) (p : Params) : List String :=
  (promptLinesRaw env p).filter (· != "")

/-- The default-path result: `lines.filter(Boolean).join("\n")`. -/
def defaultPrompt (env : Env) (p : Params) : String :=
  joinLines (promptLines env p)

/-- The fixed identity sentence returned when `promptMode` is `"none"`. -/
def basicIdentity : String := "You are a personal assistant running inside OpenClaw."

/-- Continuation of `buildAgentSystemPrompt` after the template check fails:
the `"none"` special case, else the default path. -/
def buildAgentSystemPromptNoTemplate (env : Env) (p : Params) : String :=
  if promptModeOf p = PromptMode.none then basicIdentity
  else defaultPrompt env p

/-- Embedding of `buildAgentSystemPrompt`.  `render` is the external nunjucks
renderer; `fsRead` describes the outcome of reading a file path. -/
def buildAgentSystemPrompt (env : Env) (render : String → TemplateContext → String)
    (fsRead : String → Except String String) (p : Params) : String :=
  match readSystemTemplateSync fsRead p.workspaceDir with
  | some template =>
    if template != "" then render template (mkTemplateContext env p)
    else buildAgentSystemPromptNoTemplate env p
  | Option.none => buildAgentSystemPromptNoTemplate env p

/-! ## Auxiliary definitions used by the verification -/

/-- Character-level counterpart of `joinLines`. -/
def joinChars : List (List Char) → List Char
  | [] => []
  | [l] => l
  | l :: ls => l ++ '\n' :: joinChars ls

/-- Scan for two adjacent newline characters. -/
def noDoubleNL : List Char → Bool
  | [] => true
  | [_] => true
  | a :: b :: t => !(a == '\n' && b == '\n') && noDoubleNL (b :: t)

/-- A non-empty single block of text that neither starts nor ends with a
newline and has no blank line inside. -/
def cleanLine (s : String) : Bool :=
  s != "" && noDoubleNL s.data && s.data.head? != some '\n' && s.data.getLast? != some '\n'

/-- The headers of the four sections that must be absent in minimal mode. -/
def badHeaders : List String :=
  ["## Tooling", "## Silent Replies", "## Heartbeats", "## Messaging"]

/-- The sections of the default path whose lines can depend on caller- or
environment-supplied data (same argument terms as in `promptSections`).  The
remaining sections of `promptSections` emit fixed text only. -/
def userSections (env : Env) (p : Params) : List String :=
  buildToolingSection (toolLines p) (execToolName p) (processToolName p) (isMinimalOf p)
  ++ buildModelAliasesSection p.modelAliasLines (isMinimalOf p)
  ++ buildSkillsSection (skillsPromptOf p) (isMinimalOf p) (readToolName p)
  ++ buildWorkspaceSection p.workspaceDir (workspaceNotesOf p)
  ++ buildDocsSection p.docsPath (isMinimalOf p) (readToolName p)
  ++ buildSandboxSection (p.sandboxInfo.getD { enabled := false })
  ++ buildUserIdentitySection (ownerLineOf p) (isMinimalOf p)
  ++ buildTimeSection (userTimezoneOf p)
  ++ buildMessagingSection (isMinimalOf p) (availableTools p) (messageChannelOptionsOf env)
       (inlineButtonsEnabledOf p) (runtimeChannelOf p) p.messageToolHints env.silentReplyToken
  ++ buildVoiceSection (isMinimalOf p) p.ttsHint
  ++ buildProjectContextSection p.contextFiles
  ++ buildExtraSystemPromptSection (extraSystemPromptOf p) (promptModeOf p)
  ++ (if isTruthy (extraSystemPromptOf p) then
       [(if promptModeOf p = PromptMode.minimal then "## Subagent Context"
         else "## Group Chat Context"),
        (extraSystemPromptOf p).getD "", ""]
      else [])
  ++ buildReactionsSection p.reactionGuidance
  ++ (if !(isMinimalOf p) then buildSilentRepliesSection (isMinimalOf p) env.silentReplyToken
      else [])
  ++ (if !(isMinimalOf p) then buildHeartbeatsSection (heartbeatPromptOf p) (isMinimalOf p)
      else [])
  ++ buildRuntimeSection (runtimeLineOf p) (reasoningLevelOf p) p.defaultThinkLevel

/-- Every line the fixed-text sections of the default path can emit. -/
def fixedLines : List String :=
  ["You are a personal assistant running inside OpenClaw.", ""]
  ++ buildToolCallStyleSection
  ++ buildSafetySection
  ++ buildOpenClawCLISection
  ++ buildOpenClawSelfUpdateSection true false
  ++ ["## Memory Recall",
      "Before answering anything about prior work, decisions, dates, people, preferences, or todos: run memory_search on MEMORY.md + memory/*.md; then use memory_get to pull only the needed lines. If low confidence after search, say you checked.",
      "Citations are disabled: do not mention file paths or line numbers in replies unless the user explicitly asks.",
      "Citations: include Source: <path#line> when it helps the user verify memory snippets."]
  ++ ["## Workspace Files (injected)",
      "These user-editable files are loaded by OpenClaw and included below in Project Context.",
      ""]
  ++ buildReplyTagsSection false
  ++ ["## Reasoning Format", reasoningHintText, ""]

/-- The hardcoded fallback body of the Tooling section, as produced when the
tool-line list is empty (the `exec`/`process` names resolve to themselves). -/
def fallbackToolContent : String :=
  joinLines
    ["Pi lists the standard tools above. This runtime enables:",
     "- grep: search file contents for patterns",
     "- find: find files by glob pattern",
     "- ls: list directory contents",
     "- apply_patch: apply multi-file patches",
     "- exec: run shell commands (supports background via yieldMs/background)",
     "- process: manage background exec sessions",
     "- browser: control openclaw's dedicated browser",
     "- canvas: present/eval/snapshot the Canvas",
     "- nodes: list/describe/notify/camera/screen on paired nodes",
     "- cron: manage cron jobs and wake events (use for reminders; when scheduling a reminder, write the systemEvent text as something that will read like a reminder when it fires, and mention that it is a reminder depending on the time gap between setting and firing; include recent context in reminder text if appropriate)",
     "- sessions_list: list sessions",
     "- sessions_history: fetch session history",
     "- sessions_send: send to another session"]

/-! ## Concrete inputs used by witnesses and counterexamples -/

/-- A sample environment for concrete evaluations. -/
def sampleEnv : Env :=
  { silentReplyToken := "NO_REPLY", deliverableMessageChannels := ["webchat"] }

/-- A renderer that returns the template text unchanged, which is what the
nunjucks engine does on a template containing no template syntax. -/
def renderPlain : String → TemplateContext → String := fun template _ => template

/-- Minimal-mode context with a timezone, used to exhibit adjacent sections. -/
def paramsMinimalTz : Params :=
  { workspaceDir := "/w", promptMode := some PromptMode.minimal,
    userTimezone := some "UTC" }

/-- Context whose injected context file is named after the Tooling header. -/
def paramsHeaderInjection : Params :=
  { workspaceDir := "/w", promptMode := some PromptMode.minimal,
    contextFiles := some [{ path := "Tooling", content := "x" }] }

/-- Context with tool names `exec` and `read` and no caller descriptions. -/
def paramsExecRead : Params :=
  { workspaceDir := "/w", promptMode := some PromptMode.full,
    toolNames := some ["exec", "read"] }

/-- Context with a backslashed, mixed-case soul file path. -/
def paramsSoulFile : Params :=
  { workspaceDir := "/w",
    contextFiles := some [{ path := "docs\\SOUL.MD", content := "hello" }] }

/-- Context whose injected file content equals the persona instruction. -/
def paramsSoulInjection : Params :=
  { workspaceDir := "/w",
    contextFiles := some [{ path := "a.md", content := soulPersonaLine }] }

/-- Full-mode context supplying only blank tool names. -/
def paramsBlankTools : Params :=
  { workspaceDir := "/w", promptMode := some PromptMode.full,
    toolNames := some ["", "  "] }

/-- Full-mode context with an extra system prompt. -/
def paramsExtra : Params :=
  { workspaceDir := "/w", promptMode := some PromptMode.full,
    extraSystemPrompt := some " be brief " }

/-- Mode-none context with other fields populated. -/
def paramsNone : Params :=
  { workspaceDir := "/w", promptMode := some PromptMode.none,
    userTimezone := some "UTC", ttsHint := some "speak",
    extraSystemPrompt := some "x" }

/-! ## Lemmas about the string primitives -/

theorem isPrefOf_self_append (p b : List Char) : isPrefOf p (p ++ b) = true := by
  induction p with
  | nil => rfl
  | cons a as ih => simp [isPrefOf, ih]

theorem infixOfChars_of_isPrefOf (p l : List Char) (h : isPrefOf p l = true) :
    infixOfChars p l = true := by
  cases l with
  | nil =>
    cases p with
    | nil => rfl
    | cons a as => simp [isPrefOf] at h
  | cons c t => simp [infixOfChars, h]

theorem infixOfChars_cons (p t : List Char) (c : Char) (h : infixOfChars p t = true) :
    infixOfChars p (c :: t) = true := by
  simp [infixOfChars, h]

theorem infixOfChars_of_exists (p l : List Char) (h : ∃ a b, l = a ++ p ++ b) :
    infixOfChars p l = true := by
  obtain ⟨a, b, rfl⟩ := h
  induction a with
  | nil => exact infixOfChars_of_isPrefOf _ _ (by simpa using isPrefOf_self_append p b)
  | cons x xs ih => exact infixOfChars_cons _ _ _ ih

theorem isPrefOf_split (c : Char) (p : List Char) :
    ∀ (a b : List Char), c ∉ p → isPrefOf p (a ++ c :: b) = true → isPrefOf p a = true := by
  induction p with
  | nil => intro a b _ _; rfl
  | cons x xs ih =>
    intro a b hc h
    cases a with
    | nil =>
      exfalso
      have hx : x = c ∧ isPrefOf xs b = true := by simpa [isPrefOf] using h
      obtain ⟨rfl, -⟩ := hx
      exact hc (List.mem_cons_self x xs)
    | cons y ys =>
      simp only [List.cons_append, isPrefOf, Bool.and_eq_true, beq_iff_eq] at h ⊢
      obtain ⟨rfl, h2⟩ := h
      exact ⟨rfl, ih ys b (fun hm => hc (List.mem_cons_of_mem _ hm)) h2⟩

theorem infixOfChars_split (c : Char) (p : List Char) :
    ∀ (a b : List Char), c ∉ p → p ≠ [] → infixOfChars p (a ++ c :: b) = true →
    infixOfChars p a = true ∨ infixOfChars p b = true := by
  intro a
  induction a with
  | nil =>
    intro b hc hp h
    simp only [List.nil_append] at h
    rw [infixOfChars] at h
    rw [Bool.or_eq_true] at h
    rcases h with h1 | h2
    · exfalso
      cases p with
      | nil => exact hp rfl
      | cons x xs =>
        have hx : x = c ∧ isPrefOf xs b = true := by simpa [isPrefOf] using h1
        obtain ⟨rfl, -⟩ := hx
        exact hc (List.mem_cons_self x xs)
    · exact Or.inr h2
  | cons x a' ih =>
    intro b hc hp h
    rw [List.cons_append, infixOfChars] at h
    rw [Bool.or_eq_true] at h
    rcases h with h1 | h2
    · exact Or.inl (infixOfChars_of_isPrefOf _ _ (isPrefOf_split c p (x :: a') b hc h1))
    · rcases ih b hc hp h2 with hL | hR
      · exact Or.inl (infixOfChars_cons _ _ _ hL)
      · exact Or.inr hR

theorem joinLines_data (ls : List String) :
    (joinLines ls).data = joinChars (ls.map String.data) := by
  induction ls with
  | nil => rfl
  | cons l ls ih =>
    cases ls with
    | nil => rfl
    | cons m ms =>
      show (l ++ "\n" ++ joinLines (m :: ms)).data = l.data ++ '\n' :: joinChars ((m :: ms).map String.data)
      rw [String.data_append, String.data_append, ih]
      simp

theorem joinChars_mem_decomp (l : List Char) (ls : List (List Char)) (h : l ∈ ls) :
    ∃ a b, joinChars ls = a ++ l ++ b := by
  induction ls with
  | nil => cases h
  | cons m ms ih =>
    rcases List.mem_cons.mp h with rfl | hm
    · cases ms with
      | nil => exact ⟨[], [], by simp [joinChars]⟩
      | cons n ns => exact ⟨[], '\n' :: joinChars (n :: ns), by simp [joinChars]⟩
    · obtain ⟨a, b, hab⟩ := ih hm
      cases ms with
      | nil => cases hm
      | cons n ns =>
        refine ⟨m ++ '\n' :: a, b, ?_⟩
        show m ++ '\n' :: joinChars (n :: ns) = (m ++ '\n' :: a) ++ l ++ b
        rw [hab]
        simp

theorem containsStr_joinLines_of_mem (ls : List String) (x : String) (hx : x ∈ ls) :
    containsStr (joinLines ls) x = true := by
  unfold containsStr
  rw [joinLines_data]
  exact infixOfChars_of_exists _ _
    (joinChars_mem_decomp x.data _ (List.mem_map_of_mem String.data hx))

theorem infixOfChars_joinChars (p : List Char) (hnl : '\n' ∉ p) (hne : p ≠ []) :
    ∀ L : List (List Char), infixOfChars p (joinChars L) = true →
      ∃ l ∈ L, infixOfChars p l = true := by
  intro L
  induction L with
  | nil =>
    intro h
    exfalso
    cases p with
    | nil => exact hne rfl
    | cons a as => simp [joinChars, infixOfChars, List.isEmpty] at h
  | cons m ms ih =>
    intro h
    cases ms with
    | nil => exact ⟨m, List.mem_cons_self m [], by simpa [joinChars] using h⟩
    | cons n ns =>
      rw [show joinChars (m :: n :: ns) = m ++ '\n' :: joinChars (n :: ns) from rfl] at h
      rcases infixOfChars_split '\n' p m (joinChars (n :: ns)) hnl hne h with h1 | h2
      · exact ⟨m, List.mem_cons_self m _, h1⟩
      · obtain ⟨l, hl, hli⟩ := ih h2
        exact ⟨l, List.mem_cons_of_mem _ hl, hli⟩

theorem containsStr_joinLines_split (ls : List String) (pat : String)
    (hnl : '\n' ∉ pat.data) (hne : pat.data ≠ [])
    (h : containsStr (joinLines ls) pat = true) :
    ∃ l ∈ ls, containsStr l pat = true := by
  unfold containsStr at h
  rw [joinLines_data] at h
  obtain ⟨d, hd, hdi⟩ := infixOfChars_joinChars pat.data hnl hne _ h
  obtain ⟨l, hl, rfl⟩ := List.mem_map.mp hd
  exact ⟨l, hl, hdi⟩

theorem head?_append_ne_nil (l m : List Char) (h : l ≠ []) : (l ++ m).head? = l.head? := by
  cases l with
  | nil => exact absurd rfl h
  | cons a t => rfl

theorem noDoubleNL_append (a b : List Char) (ha : noDoubleNL a = true) (hb : noDoubleNL b = true)
    (hab : a.getLast? = some '\n' → b.head? ≠ some '\n') : noDoubleNL (a ++ b) = true := by
  induction a with
  | nil => simpa using hb
  | cons x a' iha =>
    cases a' with
    | nil =>
      cases b with
      | nil => simpa using ha
      | cons y t =>
        simp only [List.singleton_append]
        rw [noDoubleNL, Bool.and_eq_true]
        refine ⟨?_, hb⟩
        by_cases hx : x = '\n'
        · have hy : y ≠ '\n' := by
            have := hab (by simp [hx])
            simpa using this
          simp [hy]
        · simp [hx]
    | cons x'' a'' =>
      rw [noDoubleNL, Bool.and_eq_true] at ha
      obtain ⟨h1, h2⟩ := ha
      have hlast : (x'' :: a'').getLast? = (x :: x'' :: a'').getLast? :=
        List.getLast?_cons_cons.symm
      have hih := iha h2 (fun hl => hab (hlast ▸ hl))
      show noDoubleNL (x :: (x'' :: a'' ++ b)) = true
      rw [show x'' :: a'' ++ b = x'' :: (a'' ++ b) from rfl, noDoubleNL, Bool.and_eq_true]
      exact ⟨h1, hih⟩

theorem noDoubleNL_joinChars (L : List (List Char))
    (h : ∀ l ∈ L, l ≠ [] ∧ noDoubleNL l = true ∧ l.head? ≠ some '\n' ∧ l.getLast? ≠ some '\n') :
    noDoubleNL (joinChars L) = true := by
  induction L with
  | nil => rfl
  | cons m ms ih =>
    cases ms with
    | nil => exact (h m (List.mem_cons_self m [])).2.1
    | cons n ns =>
      have hm := h m (List.mem_cons_self m _)
      have hn := h n (by simp)
      have hjoin : noDoubleNL (joinChars (n :: ns)) = true :=
        ih (fun l hl => h l (List.mem_cons_of_mem _ hl))
      have hhead : (joinChars (n :: ns)).head? = n.head? := by
        cases ns with
        | nil => rfl
        | cons k ks =>
          show (n ++ '\n' :: joinChars (k :: ks)).head? = n.head?
          exact head?_append_ne_nil n _ hn.1
      show noDoubleNL (m ++ '\n' :: joinChars (n :: ns)) = true
      apply noDoubleNL_append m _ hm.2.1
      · cases hjc : joinChars (n :: ns) with
        | nil => rfl
        | cons z zs =>
          rw [noDoubleNL, Bool.and_eq_true]
          refine ⟨?_, by rw [← hjc]; exact hjoin⟩
          have hz : some z = n.head? := by rw [← hhead, hjc]; rfl
          have : z ≠ '\n' := fun hzz => hn.2.2.1 (by rw [← hz, hzz])
          simp [this]
      · exact fun hl => absurd hl hm.2.2.2

theorem infixOfChars_nlnl (l : List Char) (h : noDoubleNL l = true) :
    infixOfChars ['\n', '\n'] l = false := by
  induction l with
  | nil => rfl
  | cons a t ih =>
    cases t with
    | nil => simp [infixOfChars, isPrefOf, List.isEmpty]
    | cons b t' =>
      rw [noDoubleNL, Bool.and_eq_true] at h
      obtain ⟨h1, h2⟩ := h
      have ht := ih h2
      rw [infixOfChars]
      cases hA : (a == '\n') <;> cases hB : (b == '\n') <;>
        simp_all [isPrefOf] <;>
        first
          | (intro h; exact absurd h.symm hA)
          | (intro h; exact absurd h.symm hB)

theorem not_containsStr_nlnl (s : String) (h : noDoubleNL s.data = true) :
    containsStr s "\n\n" = false := by
  unfold containsStr
  exact infixOfChars_nlnl s.data h

/-! ## Line inventory of the default path -/

theorem mem_fixed_identity :
    ∀ l ∈ (["You are a personal assistant running inside OpenClaw.", ""] : List String),
      l ∈ fixedLines := by decide

theorem mem_fixed_toolCallStyle : ∀ l ∈ buildToolCallStyleSection, l ∈ fixedLines := by decide

theorem mem_fixed_safety : ∀ l ∈ buildSafetySection, l ∈ fixedLines := by decide

theorem mem_fixed_cli : ∀ l ∈ buildOpenClawCLISection, l ∈ fixedLines := by decide

theorem mem_fixed_selfUpdate :
    ∀ (hg im : Bool), ∀ l ∈ buildOpenClawSelfUpdateSection hg im, l ∈ fixedLines := by decide

theorem mem_fixed_marker :
    ∀ l ∈ (["## Workspace Files (injected)",
            "These user-editable files are loaded by OpenClaw and included below in Project Context.",
            ""] : List String), l ∈ fixedLines := by decide

theorem mem_fixed_replyTags :
    ∀ (im : Bool), ∀ l ∈ buildReplyTagsSection im, l ∈ fixedLines := by decide

theorem mem_fixed_memory (im : Bool) (ts : List String) (cm : Option String) :
    ∀ l ∈ buildMemorySection im ts cm, l ∈ fixedLines := by
  intro l h
  unfold buildMemorySection at h
  split at h
  · simp at h
  · split at h
    · simp at h
    · split at h
      · simp only [List.append_assoc, List.cons_append, List.nil_append] at h
        fin_cases h <;> decide
      · simp only [List.append_assoc, List.cons_append, List.nil_append] at h
        fin_cases h <;> decide

theorem mem_fixed_reasoningFormat (q : Params) :
    ∀ l ∈ buildReasoningFormatSection (reasoningHintOf q), l ∈ fixedLines := by
  intro l h
  unfold reasoningHintOf at h
  by_cases hq : q.reasoningTagHint
  · rw [if_pos hq] at h
    rw [show buildReasoningFormatSection (some reasoningHintText) =
          ["## Reasoning Format", reasoningHintText, ""] from by decide] at h
    fin_cases h <;> decide
  · rw [if_neg hq] at h
    simp [buildReasoningFormatSection, isTruthy] at h

theorem promptLinesRaw_cases (env : Env) (p : Params) (l : String)
    (hl : l ∈ promptLinesRaw env p) : l ∈ fixedLines ∨ l ∈ userSections env p := by
  obtain ⟨sect, hs, hmem⟩ :=
    List.mem_flatten.mp (show l ∈ (promptSections env p).flatten from hl)
  simp only [promptSections, List.mem_cons, List.not_mem_nil, or_false] at hs
  rcases hs with rfl|rfl|rfl|rfl|rfl|rfl|rfl|rfl|rfl|rfl|rfl|rfl|rfl|rfl|rfl|rfl|rfl|rfl|rfl|rfl|rfl|rfl|rfl|rfl|rfl|rfl
  · exact Or.inl (mem_fixed_identity l hmem)
  · exact Or.inr (by simp only [userSections, List.mem_append]; tauto)
  · exact Or.inl (mem_fixed_toolCallStyle l hmem)
  · exact Or.inl (mem_fixed_safety l hmem)
  · exact Or.inl (mem_fixed_cli l hmem)
  · exact Or.inl (mem_fixed_selfUpdate (hasGateway p) (isMinimalOf p) l hmem)
  · exact Or.inr (by simp only [userSections, List.mem_append]; tauto)
  · exact Or.inr (by simp only [userSections, List.mem_append]; tauto)
  · exact Or.inl (mem_fixed_memory (isMinimalOf p) (availableTools p) p.memoryCitationsMode l hmem)
  · exact Or.inr (by simp only [userSections, List.mem_append]; tauto)
  · exact Or.inr (by simp only [userSections, List.mem_append]; tauto)
  · exact Or.inr (by simp only [userSections, List.mem_append]; tauto)
  · exact Or.inr (by simp only [userSections, List.mem_append]; tauto)
  · exact Or.inr (by simp only [userSections, List.mem_append]; tauto)
  · exact Or.inl (mem_fixed_marker l hmem)
  · exact Or.inl (mem_fixed_replyTags (isMinimalOf p) l hmem)
  · exact Or.inr (by simp only [userSections, List.mem_append]; tauto)
  · exact Or.inr (by simp only [userSections, List.mem_append]; tauto)
  · exact Or.inr (by simp only [userSections, List.mem_append]; tauto)
  · exact Or.inr (by simp only [userSections, List.mem_append]; tauto)
  · exact Or.inr (by simp only [userSections, List.mem_append]; tauto)
  · exact Or.inr (by simp only [userSections, List.mem_append]; tauto)
  · exact Or.inl (mem_fixed_reasoningFormat p l hmem)
  · exact Or.inr (by simp only [userSections, List.mem_append]; tauto)
  · exact Or.inr (by simp only [userSections, List.mem_append]; tauto)
  · exact Or.inr (by simp only [userSections, List.mem_append]; tauto)

theorem noBad_fixed : ∀ l ∈ fixedLines, ∀ b ∈ badHeaders, containsStr l b = false := by decide

theorem clean_fixed : ∀ l ∈ fixedLines, l = "" ∨ cleanLine l = true := by decide

theorem build_error_eq (env : Env) (render : String → TemplateContext → String)
    (e : String) (p : Params) :
    buildAgentSystemPrompt env render (fun _ => Except.error e) p =
      buildAgentSystemPromptNoTemplate env p := rfl

/-! ## Claim theorems -/

/-- C1 counterexample: a readable but empty `SYSTEM.md` template is falsy in
the `if (template)` check, so the assembler takes the default path instead of
returning the rendered template: the output differs from the rendered empty
template and contains default-path section text (`## Workspace`). -/
theorem C1_counterexample :
    buildAgentSystemPrompt sampleEnv renderPlain (fun _ => Except.ok "") paramsMinimalTz ≠
      renderPlain "" (mkTemplateContext sampleEnv paramsMinimalTz)
    ∧ containsStr
        (buildAgentSystemPrompt sampleEnv renderPlain (fun _ => Except.ok "") paramsMinimalTz)
        "## Workspace" = true := by
  constructor
  · decide
  · decide

/-- C1 (amended): whenever reading the override template file succeeds with
NON-EMPTY content `t`, `buildAgentSystemPrompt` returns `render t` applied to
the context projection verbatim, for every prompt mode (including `"none"`),
and hence the output contains only text that the rendered template contains. -/
theorem C1_theorem (env : Env) (render : String → TemplateContext → String)
    (fsRead : String → Except String String) (p : Params) (t : String)
    (hread : fsRead (templatePathOf p.workspaceDir) = Except.ok t) (ht : t ≠ "") :
    buildAgentSystemPrompt env render fsRead p = render t (mkTemplateContext env p)
    ∧ ∀ s : String,
        containsStr (buildAgentSystemPrompt env render fsRead p) s = true →
        containsStr (render t (mkTemplateContext env p)) s = true := by
  have hb : buildAgentSystemPrompt env render fsRead p = render t (mkTemplateContext env p) := by
    unfold buildAgentSystemPrompt readSystemTemplateSync
    rw [hread]
    simp [ht]
  exact ⟨hb, fun s h => hb ▸ h⟩

/-- C1 witness: a concrete non-empty template is returned verbatim. -/
theorem C1_witness :
    ((fun _ : String => (Except.ok "W" : Except String String))
        (templatePathOf paramsMinimalTz.workspaceDir) = Except.ok "W")
    ∧ ("W" : String) ≠ ""
    ∧ buildAgentSystemPrompt sampleEnv renderPlain (fun _ => Except.ok "W") paramsMinimalTz =
        renderPlain "W" (mkTemplateContext sampleEnv paramsMinimalTz) :=
  ⟨rfl, by decide,
    (C1_theorem sampleEnv renderPlain (fun _ => Except.ok "W") paramsMinimalTz "W" rfl
      (by decide)).1⟩

/-- C2: with `promptMode = "none"` and an unreadable override template, the
assembler returns exactly the fixed identity sentence, for every value of the
remaining fields. -/
theorem C2_theorem (env : Env) (render : String → TemplateContext → String)
    (e : String) (p : Params) (hm : p.promptMode = some PromptMode.none) :
    buildAgentSystemPrompt env render (fun _ => Except.error e) p =
      "You are a personal assistant running inside OpenClaw." := by
  rw [build_error_eq]
  unfold buildAgentSystemPromptNoTemplate
  have hmode : promptModeOf p = PromptMode.none := by simp [promptModeOf, hm]
  rw [hmode]
  rfl

/-- C2 witness: concrete mode-`"none"` context with populated other fields. -/
theorem C2_witness :
    paramsNone.promptMode = some PromptMode.none
    ∧ buildAgentSystemPrompt sampleEnv renderPlain (fun _ => Except.error "EACCES") paramsNone =
        "You are a personal assistant running inside OpenClaw." :=
  ⟨rfl, C2_theorem sampleEnv renderPlain "EACCES" paramsNone rfl⟩

/-- C3: the assembler is deterministic: it is a pure function of the prompt
context, the environment constants, the renderer, and the (explicit) result of
the template-file read, so equal input records give byte-identical output. -/
theorem C3_theorem (env : Env) (render : String → TemplateContext → String)
    (fsRead : String → Except String String) (p q : Params) (h : p = q) :
    buildAgentSystemPrompt env render fsRead p = buildAgentSystemPrompt env render fsRead q := by
  rw [h]

/-- C3 witness: determinism at a concrete input. -/
theorem C3_witness :
    paramsMinimalTz = paramsMinimalTz
    ∧ buildAgentSystemPrompt sampleEnv renderPlain (fun _ => Except.error "e") paramsMinimalTz =
        buildAgentSystemPrompt sampleEnv renderPlain (fun _ => Except.error "e") paramsMinimalTz :=
  ⟨rfl, C3_theorem sampleEnv renderPlain (fun _ => Except.error "e")
    paramsMinimalTz paramsMinimalTz rfl⟩

/-- C7: template lookup failure is never surfaced: any read error yields
`none` from `readSystemTemplateSync`, the result does not depend on the error
message or on the renderer, and absent or empty optional fields merely
suppress their dependent sections (a selection of the sections is shown). -/
theorem C7_theorem (env : Env) (render₁ render₂ : String → TemplateContext → String)
    (e₁ e₂ dir : String) (p : Params) :
    readSystemTemplateSync (fun _ => Except.error e₁) dir = Option.none
    ∧ buildAgentSystemPrompt env render₁ (fun _ => Except.error e₁) p =
        buildAgentSystemPrompt env render₂ (fun _ => Except.error e₂) p
    ∧ buildAgentSystemPrompt env render₁ (fun _ => Except.error e₁) p =
        buildAgentSystemPromptNoTemplate env p
    ∧ buildTimeSection Option.none = []
    ∧ buildTimeSection (some "") = []
    ∧ buildVoiceSection false Option.none = []
    ∧ buildVoiceSection false (some "   ") = []
    ∧ buildModelAliasesSection Option.none false = []
    ∧ buildModelAliasesSection (some []) false = []
    ∧ buildProjectContextSection Option.none = []
    ∧ buildProjectContextSection (some []) = []
    ∧ buildExtraSystemPromptSection (some "") PromptMode.full = []
    ∧ buildSkillsSection Option.none false "read" = []
    ∧ buildDocsSection Option.none false "read" = []
    ∧ buildSandboxSection { enabled := false } = []
    ∧ buildUserIdentitySection Option.none false = []
    ∧ buildReactionsSection Option.none = [] :=
  ⟨rfl, rfl, rfl, by decide, by decide, by decide, by decide, by decide, by decide, by decide,
   by decide, by decide, by decide, by decide, by decide, by decide, by decide⟩

/-- C5 counterexample: in minimal mode with no override template, an injected
context file whose path is `Tooling` makes the default path emit the line
`## Tooling` inside the Project Context section, so the output does contain
the tooling-section header even though the Tooling section itself is omitted. -/
theorem C5_counterexample :
    paramsHeaderInjection.promptMode = some PromptMode.minimal
    ∧ containsStr
        (buildAgentSystemPrompt sampleEnv renderPlain (fun _ => Except.error "ENOENT")
          paramsHeaderInjection)
        "## Tooling" = true := by
  constructor
  · rfl
  · decide

/-- C5 (amended): in minimal mode with no override template, and provided the
caller-supplied data rendered by the data-carrying sections does not itself
contain the four section headers, the output contains neither `## Tooling`,
`## Silent Replies`, `## Heartbeats`, nor `## Messaging`, while it does
contain the workspace section header and the runtime section header. -/
theorem C5_theorem (env : Env) (render : String → TemplateContext → String)
    (e : String) (p : Params) (hm : p.promptMode = some PromptMode.minimal)
    (H : ∀ u ∈ userSections env p, ∀ b ∈ badHeaders, containsStr u b = false) :
    (∀ b ∈ badHeaders,
      containsStr (buildAgentSystemPrompt env render (fun _ => Except.error e) p) b = false)
    ∧ containsStr (buildAgentSystemPrompt env render (fun _ => Except.error e) p)
        "## Workspace" = true
    ∧ containsStr (buildAgentSystemPrompt env render (fun _ => Except.error e) p)
        "## Runtime" = true := by
  have hmode : promptModeOf p = PromptMode.minimal := by simp [promptModeOf, hm]
  have hbuild : buildAgentSystemPrompt env render (fun _ => Except.error e) p =
      defaultPrompt env p := by
    rw [build_error_eq]
    unfold buildAgentSystemPromptNoTemplate
    rw [hmode]
    rfl
  rw [hbuild]
  refine ⟨?_, ?_, ?_⟩
  · intro b hb
    by_contra hcontra
    rw [Bool.not_eq_false] at hcontra
    obtain ⟨l, hl, hlb⟩ := containsStr_joinLines_split (promptLines env p) b
      (by fin_cases hb <;> decide) (by fin_cases hb <;> decide) hcontra
    have hl' := List.mem_filter.mp (show l ∈ List.filter (· != "") (promptLinesRaw env p) from hl)
    rcases promptLinesRaw_cases env p l hl'.1 with hf | hu
    · rw [noBad_fixed l hf b hb] at hlb
      cases hlb
    · rw [H l hu b hb] at hlb
      cases hlb
  · apply containsStr_joinLines_of_mem
    apply List.mem_filter.mpr
    constructor
    · apply List.mem_flatten.mpr
      refine ⟨buildWorkspaceSection p.workspaceDir (workspaceNotesOf p), ?_, ?_⟩
      · simp [promptSections]
      · simp [buildWorkspaceSection]
    · decide
  · apply containsStr_joinLines_of_mem
    apply List.mem_filter.mpr
    constructor
    · apply List.mem_flatten.mpr
      refine ⟨buildRuntimeSection (runtimeLineOf p) (reasoningLevelOf p) p.defaultThinkLevel,
        ?_, ?_⟩
      · simp [promptSections]
      · simp [buildRuntimeSection]
    · decide

/-- C5 witness: concrete minimal-mode context with clean caller data. -/
theorem C5_witness :
    paramsMinimalTz.promptMode = some PromptMode.minimal
    ∧ ((∀ b ∈ badHeaders,
        containsStr (buildAgentSystemPrompt sampleEnv renderPlain
          (fun _ => Except.error "ENOENT") paramsMinimalTz) b = false)
      ∧ containsStr (buildAgentSystemPrompt sampleEnv renderPlain
          (fun _ => Except.error "ENOENT") paramsMinimalTz) "## Workspace" = true
      ∧ containsStr (buildAgentSystemPrompt sampleEnv renderPlain
          (fun _ => Except.error "ENOENT") paramsMinimalTz) "## Runtime" = true) :=
  ⟨rfl, C5_theorem sampleEnv renderPlain "ENOENT" paramsMinimalTz rfl (by decide)⟩

/-- C6 counterexample: in the default path the final `filter(Boolean)` also
removes the blank separator lines, so consecutive sections are NOT separated
by a blank line: a concrete two-plus-section output contains no blank line at
all, and a section header directly follows the last line of the previous
section after a single newline. -/
theorem C6_counterexample :
    containsStr (buildAgentSystemPrompt sampleEnv renderPlain (fun _ => Except.error "e")
        paramsMinimalTz) "\n\n" = false
    ∧ containsStr (buildAgentSystemPrompt sampleEnv renderPlain (fun _ => Except.error "e")
        paramsMinimalTz) "## Workspace" = true
    ∧ containsStr (buildAgentSystemPrompt sampleEnv renderPlain (fun _ => Except.error "e")
        paramsMinimalTz) "## Runtime" = true
    ∧ containsStr (buildAgentSystemPrompt sampleEnv renderPlain (fun _ => Except.error "e")
        paramsMinimalTz)
        "run session_status (üìä session_status).\n## Workspace Files (injected)" = true := by
  refine ⟨by decide, by decide, by decide, by decide⟩

/-- C6 (amended): the default path joins the non-empty lines of the included
sections with single newlines — every empty string, including the per-section
trailing blank separator, is removed by the final `filter(Boolean)` — so
omitted or empty sections leave no gap and, provided each caller-dependent
section emits only single-line non-empty blocks that do not start or end with
a newline, the output contains no blank line at all. -/
theorem C6_theorem (env : Env) (render : String → TemplateContext → String)
    (e : String) (p : Params) (hmode : promptModeOf p ≠ PromptMode.none)
    (H : ∀ u ∈ userSections env p, u = "" ∨ cleanLine u = true) :
    buildAgentSystemPrompt env render (fun _ => Except.error e) p =
      joinLines (promptLines env p)
    ∧ containsStr (buildAgentSystemPrompt env render (fun _ => Except.error e) p)
        "\n\n" = false := by
  have hbuild : buildAgentSystemPrompt env render (fun _ => Except.error e) p =
      defaultPrompt env p := by
    rw [build_error_eq]
    unfold buildAgentSystemPromptNoTemplate
    rw [if_neg hmode]
  refine ⟨hbuild, ?_⟩
  rw [hbuild]
  apply not_containsStr_nlnl
  rw [show defaultPrompt env p = joinLines (promptLines env p) from rfl, joinLines_data]
  apply noDoubleNL_joinChars
  intro d hd
  obtain ⟨l, hl, rfl⟩ := List.mem_map.mp hd
  have hl2 := List.mem_filter.mp (show l ∈ List.filter (· != "") (promptLinesRaw env p) from hl)
  have hlne : l ≠ "" := by simpa using hl2.2
  have hclean : cleanLine l = true := by
    rcases promptLinesRaw_cases env p l hl2.1 with hf | hu
    · rcases clean_fixed l hf with h | h
      · exact absurd h hlne
      · exact h
    · rcases H l hu with h | h
      · exact absurd h hlne
      · exact h
  unfold cleanLine at hclean
  simp only [Bool.and_eq_true, bne_iff_ne, ne_eq] at hclean
  have hdata : l.data ≠ [] := by
    intro hd0
    apply hlne
    cases l with
    | mk d => cases hd0; rfl
  exact ⟨hdata, hclean.1.1.2, hclean.1.2, hclean.2⟩

/-- C6 witness: the amended statement at a concrete two-section context. -/
theorem C6_witness :
    promptModeOf paramsMinimalTz ≠ PromptMode.none
    ∧ (buildAgentSystemPrompt sampleEnv renderPlain (fun _ => Except.error "e") paramsMinimalTz =
        joinLines (promptLines sampleEnv paramsMinimalTz)
      ∧ containsStr (buildAgentSystemPrompt sampleEnv renderPlain (fun _ => Except.error "e")
          paramsMinimalTz) "\n\n" = false) :=
  ⟨by decide, C6_theorem sampleEnv renderPlain "e" paramsMinimalTz (by decide) (by decide)⟩

/-- Filtering the flattened sections around two designated adjacent sections. -/
theorem filter_flatten_around (q : String → Bool) (L1 L2 : List (List String))
    (a b : List String) :
    ∃ l1 l3, ((L1 ++ ([a, b] ++ L2)).flatten).filter q =
      l1 ++ (a.filter q ++ b.filter q) ++ l3 :=
  ⟨(L1.flatten).filter q, (L2.flatten).filter q, by
    simp [List.flatten_append, List.filter_append, List.append_assoc]⟩

/-- C8: whenever a non-blank `extraSystemPrompt` is supplied, the default path
emits the extra-context block (mode-dependent header followed by the trimmed
extra text) twice in a row: once from `buildExtraSystemPromptSection` and once
from the inline append that follows the `lines` literal. -/
theorem C8_theorem (env : Env) (render : String → TemplateContext → String)
    (e s : String) (p : Params)
    (hex : p.extraSystemPrompt = some s) (hs : jsTrim s ≠ "")
    (hmode : promptModeOf p ≠ PromptMode.none) :
    ∃ l1 l3, promptLines env p =
        l1 ++ [(if promptModeOf p = PromptMode.minimal then "## Subagent Context"
                else "## Group Chat Context"), jsTrim s,
               (if promptModeOf p = PromptMode.minimal then "## Subagent Context"
                else "## Group Chat Context"), jsTrim s] ++ l3
      ∧ buildAgentSystemPrompt env render (fun _ => Except.error e) p =
          joinLines (promptLines env p) := by
  have hbuild : buildAgentSystemPrompt env render (fun _ => Except.error e) p =
      defaultPrompt env p := by
    rw [build_error_eq]
    unfold buildAgentSystemPromptNoTemplate
    rw [if_neg hmode]
  have he : extraSystemPromptOf p = some (jsTrim s) := by
    simp [extraSystemPromptOf, hex]
  have hb : (jsTrim s != "") = true := by simpa [bne_iff_ne] using hs
  have htr : isTruthy (extraSystemPromptOf p) = true := by
    rw [he]
    simpa [isTruthy] using hb
  set hdr := (if promptModeOf p = PromptMode.minimal then "## Subagent Context"
              else "## Group Chat Context") with hhdr
  have hhdr_ne : (hdr != "") = true := by
    rw [hhdr]
    split <;> decide
  have hsecA : buildExtraSystemPromptSection (extraSystemPromptOf p) (promptModeOf p) =
      [hdr, jsTrim s, ""] := by
    unfold buildExtraSystemPromptSection
    rw [htr, he]
    simp [hhdr]
  have hsecB : (if isTruthy (extraSystemPromptOf p) then
      [(if promptModeOf p = PromptMode.minimal then "## Subagent Context"
        else "## Group Chat Context"),
       (extraSystemPromptOf p).getD "", ""]
     else []) = [hdr, jsTrim s, ""] := by
    rw [htr, he]
    simp [hhdr]
  have hfa : (buildExtraSystemPromptSection (extraSystemPromptOf p) (promptModeOf p)).filter
      (· != "") = [hdr, jsTrim s] := by
    rw [hsecA]
    simp [List.filter, hb, hhdr_ne]
  have hfb : ((if isTruthy (extraSystemPromptOf p) then
      [(if promptModeOf p = PromptMode.minimal then "## Subagent Context"
        else "## Group Chat Context"),
       (extraSystemPromptOf p).getD "", ""]
     else []) : List String).filter (· != "") = [hdr, jsTrim s] := by
    rw [hsecB]
    simp [List.filter, hb, hhdr_ne]
  have hsplit : promptSections env p =
      (promptSections env p).take 19 ++
        ([buildExtraSystemPromptSection (extraSystemPromptOf p) (promptModeOf p),
          (if isTruthy (extraSystemPromptOf p) then
            [(if promptModeOf p = PromptMode.minimal then "## Subagent Context"
              else "## Group Chat Context"),
             (extraSystemPromptOf p).getD "", ""]
           else [])] ++ (promptSections env p).drop 21) := rfl
  obtain ⟨l1, l3, happly⟩ := filter_flatten_around (· != "")
    ((promptSections env p).take 19) ((promptSections env p).drop 21)
    (buildExtraSystemPromptSection (extraSystemPromptOf p) (promptModeOf p))
    (if isTruthy (extraSystemPromptOf p) then
      [(if promptModeOf p = PromptMode.minimal then "## Subagent Context"
        else "## Group Chat Context"),
       (extraSystemPromptOf p).getD "", ""]
     else [])
  refine ⟨l1, l3, ?_, hbuild⟩
  have hlines : promptLines env p =
      ((((promptSections env p).take 19) ++
        ([buildExtraSystemPromptSection (extraSystemPromptOf p) (promptModeOf p),
          (if isTruthy (extraSystemPromptOf p) then
            [(if promptModeOf p = PromptMode.minimal then "## Subagent Context"
              else "## Group Chat Context"),
             (extraSystemPromptOf p).getD "", ""]
           else [])] ++ (promptSections env p).drop 21)).flatten).filter (· != "") :=
    congrArg (fun L => (L.flatten).filter (· != "")) hsplit
  rw [hlines, happly, hfa, hfb]
  rfl

/-- C8 witness: a concrete full-mode context with extra prompt `" be brief "`. -/
theorem C8_witness :
    paramsExtra.extraSystemPrompt = some " be brief "
    ∧ jsTrim " be brief " ≠ ""
    ∧ promptModeOf paramsExtra ≠ PromptMode.none
    ∧ ∃ l1 l3, promptLines sampleEnv paramsExtra =
        l1 ++ [(if promptModeOf paramsExtra = PromptMode.minimal then "## Subagent Context"
                else "## Group Chat Context"), jsTrim " be brief ",
               (if promptModeOf paramsExtra = PromptMode.minimal then "## Subagent Context"
                else "## Group Chat Context"), jsTrim " be brief "] ++ l3
      ∧ buildAgentSystemPrompt sampleEnv renderPlain (fun _ => Except.error "e") paramsExtra =
          joinLines (promptLines sampleEnv paramsExtra) :=
  ⟨rfl, by decide, by decide,
    C8_theorem sampleEnv renderPlain "e" " be brief " paramsExtra rfl (by decide) (by decide)⟩

/-- C9 counterexample: an injected context file whose CONTENT equals the
persona instruction makes the Project Context section contain that line even
though no supplied path has basename `soul.md`. -/
theorem C9_counterexample :
    (soulPersonaLine ∈ buildProjectContextSection paramsSoulInjection.contextFiles)
    ∧ ¬ ∃ f ∈ (paramsSoulInjection.contextFiles.getD []), isSoulPath f.path = true := by
  constructor
  · decide
  · decide

/-- C9 (amended): provided no supplied file smuggles the persona line in as
its content or as its `## <path>` header, the Project Context section contains
the persona instruction line if and only if some supplied file's path has
basename `soul.md` case-insensitively, after trimming and normalizing
backslashes to slashes. -/
theorem C9_theorem (p : Params) (files : List ContextFile)
    (hf : p.contextFiles = some files)
    (hclean : ∀ f ∈ files, f.content ≠ soulPersonaLine ∧ "## " ++ f.path ≠ soulPersonaLine) :
    soulPersonaLine ∈ buildProjectContextSection p.contextFiles ↔
      ∃ f ∈ files, isSoulPath f.path = true := by
  rw [hf]
  rw [show buildProjectContextSection (some files) =
        (if files.length = 0 then [] else
          (["# Project Context", "", "The following project context files have been loaded:"] ++
              (if files.any (fun f => isSoulPath f.path) = true then [soulPersonaLine] else [])) ++
            [""] ++ files.flatMap (fun f => ["## " ++ f.path, "", f.content, ""])) from rfl]
  by_cases h0 : files.length = 0
  · rw [if_pos h0]
    rw [List.length_eq_zero] at h0
    subst h0
    simp
  · rw [if_neg h0]
    constructor
    · intro hmem
      simp only [List.mem_append] at hmem
      rcases hmem with ((h | h) | h) | h
      · exact absurd h (by decide)
      · split at h
        · next hany =>
            simpa using List.any_eq_true.mp hany
        · simp at h
      · exact absurd h (by decide)
      · obtain ⟨f, hfm, hin⟩ := List.mem_flatMap.mp h
        simp only [List.mem_cons, List.not_mem_nil, or_false] at hin
        rcases hin with h1 | h1 | h1 | h1
        · exact absurd h1.symm (hclean f hfm).2
        · exact absurd h1 (by decide)
        · exact absurd h1.symm (hclean f hfm).1
        · exact absurd h1 (by decide)
    · intro hex
      have hany : files.any (fun f => isSoulPath f.path) = true :=
        List.any_eq_true.mpr hex
      rw [hany]
      simp

/-- C9 witness: a backslashed, mixed-case soul path is detected. -/
theorem C9_witness :
    paramsSoulFile.contextFiles =
      some [{ path := "docs\\SOUL.MD", content := "hello" }]
    ∧ (soulPersonaLine ∈ buildProjectContextSection paramsSoulFile.contextFiles ↔
        ∃ f ∈ [({ path := "docs\\SOUL.MD", content := "hello" } : ContextFile)],
          isSoulPath f.path = true) :=
  ⟨rfl, C9_theorem paramsSoulFile [{ path := "docs\\SOUL.MD", content := "hello" }] rfl
    (by decide)⟩

/-- C10: in full mode, a caller-supplied tool-name list that is empty or
contains only blank names produces an empty formatted tool-line list, yet the
Tooling section is still emitted with the hardcoded fallback body (grep, find,
ls, apply_patch, exec, process, browser, canvas, nodes, cron, sessions_list,
sessions_history, sessions_send); the fallback body appears in the output. -/
theorem C10_theorem (env : Env) (render : String → TemplateContext → String)
    (e : String) (p : Params) (ts : List String)
    (hmode : p.promptMode = some PromptMode.full)
    (hnames : p.toolNames = some ts) (hblank : ∀ t ∈ ts, jsTrim t = "") :
    toolLines p = []
    ∧ buildToolingSection (toolLines p) (execToolName p) (processToolName p) (isMinimalOf p) =
        ["## Tooling",
         "Tool availability (filtered by policy):",
         "Tool names are case-sensitive. Call tools exactly as listed.",
         fallbackToolContent,
         "TOOLS.md does not control tool availability; it is user guidance for how to use external tools.",
         "If a task is more complex or takes longer, spawn a sub-agent. It will do the work for you and ping you when it's done. You can always check up on it.",
         ""]
    ∧ containsStr (buildAgentSystemPrompt env render (fun _ => Except.error e) p)
        fallbackToolContent = true := by
  have hcanon : canonicalToolNames p = [] := by
    unfold canonicalToolNames rawToolNames
    rw [hnames]
    rw [List.filter_eq_nil_iff]
    intro a ha
    obtain ⟨t, ht, rfl⟩ := List.mem_map.mp ha
    simp [hblank t ht]
  have hnorm : normalizedTools p = [] := by
    unfold normalizedTools
    rw [hcanon]
    rfl
  have havail : availableTools p = [] := by
    unfold availableTools
    rw [hnorm]
    rfl
  have henabled : enabledTools p = [] := by
    unfold enabledTools
    rw [havail]
    rfl
  have hextra : extraTools p = [] := by
    unfold extraTools
    rw [hnorm]
    rfl
  have htl : toolLines p = [] := by
    unfold toolLines
    rw [henabled, hextra]
    rfl
  have hexec : execToolName p = "exec" := by
    unfold execToolName resolveToolName
    rw [hcanon]
    rfl
  have hproc : processToolName p = "process" := by
    unfold processToolName resolveToolName
    rw [hcanon]
    rfl
  have hmodeq : promptModeOf p = PromptMode.full := by simp [promptModeOf, hmode]
  have hmin : isMinimalOf p = false := by
    unfold isMinimalOf
    rw [hmodeq]
  have hsec : buildToolingSection (toolLines p) (execToolName p) (processToolName p)
      (isMinimalOf p) =
      ["## Tooling",
       "Tool availability (filtered by policy):",
       "Tool names are case-sensitive. Call tools exactly as listed.",
       fallbackToolContent,
       "TOOLS.md does not control tool availability; it is user guidance for how to use external tools.",
       "If a task is more complex or takes longer, spawn a sub-agent. It will do the work for you and ping you when it's done. You can always check up on it.",
       ""] := by
    rw [htl, hexec, hproc, hmin]
    rfl
  refine ⟨htl, hsec, ?_⟩
  have hbuild : buildAgentSystemPrompt env render (fun _ => Except.error e) p =
      defaultPrompt env p := by
    rw [build_error_eq]
    unfold buildAgentSystemPromptNoTemplate
    rw [hmodeq]
    rfl
  rw [hbuild]
  apply containsStr_joinLines_of_mem
  apply List.mem_filter.mpr
  constructor
  · apply List.mem_flatten.mpr
    refine ⟨buildToolingSection (toolLines p) (execToolName p) (processToolName p)
      (isMinimalOf p), ?_, ?_⟩
    · simp [promptSections]
    · rw [hsec]
      simp
  · decide

/-- C10 witness: blank tool names in full mode still yield the fallback list. -/
theorem C10_witness :
    paramsBlankTools.promptMode = some PromptMode.full
    ∧ paramsBlankTools.toolNames = some ["", "  "]
    ∧ (∀ t ∈ (["", "  "] : List String), jsTrim t = "")
    ∧ (toolLines paramsBlankTools = []
      ∧ buildToolingSection (toolLines paramsBlankTools) (execToolName paramsBlankTools)
          (processToolName paramsBlankTools) (isMinimalOf paramsBlankTools) =
          ["## Tooling",
           "Tool availability (filtered by policy):",
           "Tool names are case-sensitive. Call tools exactly as listed.",
           fallbackToolContent,
           "TOOLS.md does not control tool availability; it is user guidance for how to use external tools.",
           "If a task is more complex or takes longer, spawn a sub-agent. It will do the work for you and ping you when it's done. You can always check up on it.",
           ""]
      ∧ containsStr (buildAgentSystemPrompt sampleEnv renderPlain
          (fun _ => Except.error "e") paramsBlankTools) fallbackToolContent = true) :=
  ⟨rfl, rfl, by decide,
    C10_theorem sampleEnv renderPlain "e" paramsBlankTools ["", "  "] rfl rfl (by decide)⟩

/-- C4 counterexample: with tool names `["exec","read"]` and no caller
descriptions, the emitted lines carry the BUILT-IN core descriptions — the
bare lines `- read` and `- exec` appear nowhere in the default-path output. -/
theorem C4_counterexample :
    toolLines paramsExecRead =
      ["- read: Read file contents",
       "- exec: Run shell commands (pty available for TTY-required CLIs)"]
    ∧ ("- read" ∉ promptLines sampleEnv paramsExecRead)
    ∧ ("- exec" ∉ promptLines sampleEnv paramsExecRead) := by
  refine ⟨by decide, by decide, by decide⟩

/-- C4 (amended): given the tool-name list `["exec","read"]` and no caller
descriptions, the default path emits the line for `read` before the line for
`exec` (canonical priority order), each formatted as
`- <name>: <built-in core description>`; the two lines appear consecutively in
the output. -/
theorem C4_theorem (env : Env) (render : String → TemplateContext → String)
    (e : String) (p : Params)
    (hnames : p.toolNames = some ["exec", "read"])
    (_hsumm : p.toolSummaries = [])
    (hmode : p.promptMode = some PromptMode.full) :
    toolLines p =
      ["- read: Read file contents",
       "- exec: Run shell commands (pty available for TTY-required CLIs)"]
    ∧ containsStr (buildAgentSystemPrompt env render (fun _ => Except.error e) p)
        "- read: Read file contents\n- exec: Run shell commands (pty available for TTY-required CLIs)"
        = true := by
  have henab : enabledTools p = ["read", "exec"] := by
    simp only [enabledTools, availableTools, normalizedTools, canonicalToolNames,
      rawToolNames, hnames]
    rfl
  have hextraT : extraTools p = [] := by
    simp only [extraTools, normalizedTools, canonicalToolNames, rawToolNames, hnames]
    rfl
  have hread : toolLineFor p "read" = "- read: Read file contents" := by
    simp only [toolLineFor, resolveToolName, canonicalToolNames, rawToolNames, coreSummary,
      hnames]
    rfl
  have hexecL : toolLineFor p "exec" =
      "- exec: Run shell commands (pty available for TTY-required CLIs)" := by
    simp only [toolLineFor, resolveToolName, canonicalToolNames, rawToolNames, coreSummary,
      hnames]
    rfl
  have htl : toolLines p =
      ["- read: Read file contents",
       "- exec: Run shell commands (pty available for TTY-required CLIs)"] := by
    unfold toolLines
    rw [henab, hextraT]
    simp only [List.map_cons, List.map_nil, sortStrings, List.foldr]
    rw [hread, hexecL]
    simp
  have hmodeq : promptModeOf p = PromptMode.full := by simp [promptModeOf, hmode]
  have hmin : isMinimalOf p = false := by
    unfold isMinimalOf
    rw [hmodeq]
  refine ⟨htl, ?_⟩
  have hbuild : buildAgentSystemPrompt env render (fun _ => Except.error e) p =
      defaultPrompt env p := by
    rw [build_error_eq]
    unfold buildAgentSystemPromptNoTemplate
    rw [hmodeq]
    rfl
  rw [hbuild]
  have hjoin : joinLines (toolLines p) =
      "- read: Read file contents\n- exec: Run shell commands (pty available for TTY-required CLIs)" := by
    rw [htl]
    rfl
  rw [← hjoin]
  apply containsStr_joinLines_of_mem
  apply List.mem_filter.mpr
  constructor
  · apply List.mem_flatten.mpr
    refine ⟨buildToolingSection (toolLines p) (execToolName p) (processToolName p)
      (isMinimalOf p), ?_, ?_⟩
    · simp [promptSections]
    · rw [hmin]
      unfold buildToolingSection
      rw [htl]
      simp
  · rw [hjoin]
    decide

/-- C4 witness: the amended statement at the concrete context. -/
theorem C4_witness :
    paramsExecRead.toolNames = some ["exec", "read"]
    ∧ paramsExecRead.toolSummaries = []
    ∧ paramsExecRead.promptMode = some PromptMode.full
    ∧ (toolLines paramsExecRead =
        ["- read: Read file contents",
         "- exec: Run shell commands (pty available for TTY-required CLIs)"]
      ∧ containsStr (buildAgentSystemPrompt sampleEnv renderPlain
          (fun _ => Except.error "e") paramsExecRead)
          "- read: Read file contents\n- exec: Run shell commands (pty available for TTY-required CLIs)"
          = true) :=
  ⟨rfl, rfl, rfl, C4_theorem sampleEnv renderPlain "e" paramsExecRead rfl rfl rfl⟩

end OpenClaw
